import Mathlib

/-!
Shallow embedding of the legacy-pos-reporter pipeline (src/analyze.py, src/extract.py,
src/report.py, src/email_sender.py, src/config.py).

Modelling conventions:
* a pandas DataFrame of table rows is a `List` of records, in row order;
* decimal currency amounts are rationals (`ℚ`);
* a combined DATE+TIME timestamp is a number of minutes on the proleptic Gregorian
  calendar (`dtToMin`), so `timedelta(days=1)` is `+ 1440` and the calendar-date
  component (`.dt.date`) is division by 1440;
* `df.groupby(k)` / `value_counts` materialise one entry per distinct key present;
  dictionary outputs are association lists (their entry order is irrelevant to every
  claim, and the spec leaves grouping order implementation-defined);
* pandas `sort_values(ascending=False)` is a deterministic descending insertion sort
  (the spec leaves the tie-break rule implementation-defined);
* `NaN` results (mean of an empty series, min/max of an empty column) are `none`;
* fallible / effectful steps (PDF generation, SMTP delivery) return explicit result
  values, with the network actions a run performs recorded as a trace.
-/

namespace PosReporter

/-! ## Data model (src/extract.py table rows) -/

/-- One row of the INVOICE table, after `filter_table_by_time` has merged the DATE and
TIME fields into a single timestamp (minutes, see `dtToMin`). `SALE_INFO` is the
payment-method label and `C_NO` the service-type label used by `analyze_invoices`. -/
structure Invoice where
  date : ℕ
  amount : ℚ
  vat : ℚ
  sale_info : String
  c_no : String
deriving DecidableEq

/-- One row of the SALE table (one line item), with the merged timestamp. -/
structure Sale where
  date : ℕ
  inv_no : ℕ
  items : String
  catogery : String
  qty : ℚ
  amount : ℚ
  cost : ℚ
deriving DecidableEq

/-! ## Grouping primitives (the pandas operations used by src/analyze.py) -/

/-- Distinct keys of a list, first occurrence first (`seen` accumulates keys already
emitted). -/
def uniqueKeysAux {κ : Type} [DecidableEq κ] (seen : List κ) : List κ → List κ
  | [] => []
  | k :: ks =>
    if k ∈ seen then uniqueKeysAux seen ks
    else k :: uniqueKeysAux (k :: seen) ks

/-- The distinct keys present in a list, in order of first appearance. -/
def uniqueKeys {κ : Type} [DecidableEq κ] (l : List κ) : List κ :=
  uniqueKeysAux [] l

/-- `df.groupby(key)[val].sum()` evaluated at one group key. -/
def groupSum {α κ : Type} [DecidableEq κ] (key : α → κ) (val : α → ℚ) (xs : List α)
    (k : κ) : ℚ :=
  ((xs.filter fun a => decide (key a = k)).map val).sum

/-- `df.groupby(key).size()` / the per-key count behind `value_counts`. -/
def groupCount {α κ : Type} [DecidableEq κ] (key : α → κ) (xs : List α) (k : κ) : ℕ :=
  (xs.filter fun a => decide (key a = k)).length

/-- Descending order by a weight function (pandas `ascending=False`). -/
def descBy {α β : Type} [LinearOrder β] (w : α → β) (a b : α) : Prop :=
  w b ≤ w a

instance {α β : Type} [LinearOrder β] (w : α → β) : DecidableRel (descBy w) := fun a b =>
  inferInstanceAs (Decidable (w b ≤ w a))

instance {α β : Type} [LinearOrder β] (w : α → β) : IsTotal α (descBy w) :=
  ⟨fun a b => le_total (w b) (w a)⟩

instance {α β : Type} [LinearOrder β] (w : α → β) : IsTrans α (descBy w) :=
  ⟨fun _ _ _ h1 h2 => le_trans h2 h1⟩

/-- `series.value_counts().to_dict()`: one (key, count) entry per distinct key, the
entries ordered by descending count as pandas displays them. -/
def value_counts {α κ : Type} [DecidableEq κ] (key : α → κ) (xs : List α) :
    List (κ × ℕ) :=
  List.insertionSort (descBy Prod.snd)
    ((uniqueKeys (xs.map key)).map fun k => (k, groupCount key xs k))

/-- `df.groupby(key)[val].sum().to_dict()`: one (key, sum) entry per distinct key. -/
def groupSums {α κ : Type} [DecidableEq κ] (key : α → κ) (val : α → ℚ) (xs : List α) :
    List (κ × ℚ) :=
  (uniqueKeys (xs.map key)).map fun k => (k, groupSum key val xs k)

/-! ## src/analyze.py -/

/-- The `{"counts": ..., "amounts": ...}` pair built for the payment and service
breakdowns in `analyze_invoices`. -/
structure Breakdown (κ : Type) where
  counts : List (κ × ℕ)
  amounts : List (κ × ℚ)
deriving DecidableEq

/-- The calendar-date component of an invoice timestamp (`invoices_df["DATE"].dt.date`). -/
def calendarDay (i : Invoice) : ℕ :=
  i.date / 1440

/-- The dictionary returned by `analyze_invoices`. -/
structure InvoiceMetrics where
  total_revenue : ℚ
  total_transactions : ℕ
  average_transaction : ℚ
  payment_breakdown : Breakdown String
  service_breakdown : Breakdown String
  daily_sales : List (ℕ × ℚ)
  total_vat : ℚ
deriving DecidableEq

/-- `analyze_invoices` (src/analyze.py lines 8-46). -/
def analyze_invoices (invoices : List Invoice) : InvoiceMetrics :=
  let total_revenue := (invoices.map Invoice.amount).sum
  let n := invoices.length
  { total_revenue := total_revenue
    total_transactions := n
    average_transaction := if n > 0 then total_revenue / n else 0
    payment_breakdown :=
      { counts := value_counts Invoice.sale_info invoices
        amounts := groupSums Invoice.sale_info Invoice.amount invoices }
    service_breakdown :=
      { counts := value_counts Invoice.c_no invoices
        amounts := groupSums Invoice.c_no Invoice.amount invoices }
    daily_sales := groupSums calendarDay Invoice.amount invoices
    total_vat := (invoices.map Invoice.vat).sum }

/-- One record of `top_items` / `category_performance`: the grouped sums of QTY,
AMOUNT and COST plus the derived PROFIT column. -/
structure ItemAgg where
  key : String
  qty : ℚ
  amount : ℚ
  cost : ℚ
  profit : ℚ
deriving DecidableEq

/-- `sales_df.groupby(key).agg` (sum of QTY, AMOUNT, COST) followed by
`PROFIT = AMOUNT - COST`, one record per distinct key. -/
def aggBy (key : Sale → String) (xs : List Sale) : List ItemAgg :=
  (uniqueKeys (xs.map key)).map fun k =>
    { key := k
      qty := groupSum key Sale.qty xs k
      amount := groupSum key Sale.amount xs k
      cost := groupSum key Sale.cost xs k
      profit := groupSum key Sale.amount xs k - groupSum key Sale.cost xs k }

/-- `sort_values("AMOUNT", ascending=False)`. -/
def sortDescByAmount (l : List ItemAgg) : List ItemAgg :=
  List.insertionSort (descBy ItemAgg.amount) l

/-- Modelled from the spec: `config.TOP_ITEMS_COUNT` is read by `analyze_sales`
(src/analyze.py line 62) but no definition of it appears in `src/config.py`; the spec
states the top-N size is configurable with default 10. -/
def TOP_ITEMS_COUNT : ℕ := 10

/-- The dictionary returned by `analyze_sales`. `avg_items_per_order` is `none` when
pandas would produce `NaN` (mean over zero invoice groups). -/
structure SalesMetrics where
  top_items : List ItemAgg
  category_performance : List ItemAgg
  total_items_sold : ℚ
  total_cost : ℚ
  total_profit : ℚ
  avg_items_per_order : Option ℚ
deriving DecidableEq

/-- `analyze_sales` (src/analyze.py lines 49-90), with the configured top-N count
passed explicitly (the source reads it from the ambient `config` module). -/
def analyze_sales (topN : ℕ) (sales : List Sale) : SalesMetrics :=
  let ids := uniqueKeys (sales.map Sale.inv_no)
  { top_items := (sortDescByAmount (aggBy Sale.items sales)).take topN
    category_performance := sortDescByAmount (aggBy Sale.catogery sales)
    total_items_sold := (sales.map Sale.qty).sum
    total_cost := (sales.map Sale.cost).sum
    total_profit := (sales.map Sale.amount).sum - (sales.map Sale.cost).sum
    avg_items_per_order :=
      if ids.length = 0 then none
      else some ((ids.map (groupSum Sale.inv_no Sale.qty sales)).sum / ids.length) }

/-- Integer rounding, ties to even: the rounding used by Python `round`. -/
def roundHalfEven (q : ℚ) : ℤ :=
  let f := ⌊q⌋
  let r := q - f
  if r < 1 / 2 then f
  else if 1 / 2 < r then f + 1
  else if f % 2 = 0 then f else f + 1

/-- Python `round(x, 1)`: round to one decimal place, ties to even. -/
def round1 (q : ℚ) : ℚ :=
  (roundHalfEven (q * 10) : ℚ) / 10

/-- The dictionary returned by `generate_report_data`. `period_start`/`period_end`
are `none` when the invoice collection is empty (pandas min/max give `NaN`); the
`growth` field is `none` when the `"growth"` key is absent from the dictionary and
`some g` when the key is present with value `g`. -/
structure Report where
  invoices : InvoiceMetrics
  sales : SalesMetrics
  period_start : Option ℕ
  period_end : Option ℕ
  growth : Option (Option ℚ)
deriving DecidableEq

/-- `calculate_growth` (src/analyze.py lines 93-105); `previous = none` models a
falsy `previous_metrics` argument. -/
def calculate_growth (current : Report) (previous : Option Report) : Option ℚ :=
  match previous with
  | none => none
  | some prev =>
    let current_revenue := current.invoices.total_revenue
    let previous_revenue := prev.invoices.total_revenue
    if previous_revenue = 0 then none
    else some (round1 ((current_revenue - previous_revenue) / previous_revenue * 100))

/-- `generate_report_data` (src/analyze.py lines 108-133). -/
def generate_report_data (topN : ℕ) (invoices : List Invoice) (sales : List Sale)
    (previous_data : Option Report) : Report :=
  let report : Report :=
    { invoices := analyze_invoices invoices
      sales := analyze_sales topN sales
      period_start := (invoices.map Invoice.date).min?
      period_end := (invoices.map Invoice.date).max?
      growth := none }
  match previous_data with
  | none => report
  | some prev => { report with growth := some (calculate_growth report (some prev)) }

/-! ## src/report.py (document renderer, modelled at section granularity) -/

/-- The sections of the full report layout, in the order `generate_pdf` appends them. -/
inductive ReportSection
  | header
  | summary
  | payment
  | service
  | topItems
  | category
  | invoiceDetail
deriving DecidableEq

/-- The rendered document: either the minimal "No sales today." page or the full
layout with its list of sections. -/
inductive PdfDoc
  | noSales
  | full (sections : List ReportSection)
deriving DecidableEq

/-- `generate_no_sales_pdf` (src/report.py lines 419-446): the minimal document. -/
def generate_no_sales_pdf : PdfDoc :=
  PdfDoc.noSales

/-- `generate_pdf` (src/report.py lines 448-512). `report_data = none` models a falsy
`report_data` argument (the `"invoices" not in report_data` probe cannot fire on the
typed model); `withDetail` models `data_invoices is not None`. -/
def generate_pdf (report_data : Option Report) (withDetail : Bool) : PdfDoc :=
  match report_data with
  | none => generate_no_sales_pdf
  | some r =>
    if r.invoices.total_transactions = 0 then generate_no_sales_pdf
    else
      PdfDoc.full
        ([.header, .summary, .payment, .service, .topItems, .category] ++
          if withDetail then [.invoiceDetail] else [])

/-! ## src/email_sender.py (delivery agent) -/

/-- The email-related fields read from `config` by `send_report_email`; an unset
field is the empty string, as in `settings.ini` parsing. -/
structure EmailConfig where
  email_from : String
  email_password : String
  email_to : String
deriving DecidableEq

/-- The distinct failure kinds of `send_report_email`: `ValueError` for incomplete
configuration, `smtplib.SMTPAuthenticationError`, other `smtplib.SMTPException`s,
and any other exception. -/
inductive EmailErrKind
  | configIncomplete
  | authFailure
  | transportFailure
  | unexpected
deriving DecidableEq

/-- Network operations `send_report_email` can perform, in SMTP-session order. -/
inductive NetAction
  | connect
  | startTls
  | login
  | sendMessage
  | quit
deriving DecidableEq

/-- How the SMTP server behaves once contacted (the environment of the run). -/
inductive SmtpBehavior
  | accepts
  | rejectsAuth
  | failsTransport
  | failsOtherwise
deriving DecidableEq

/-- The effective recipient, `recipient = recipient or config.EMAIL_TO`
(src/email_sender.py line 24): a `None` or empty argument falls back to the
configured address. -/
def effectiveRecipient (cfg : EmailConfig) (recipient : Option String) : String :=
  match recipient with
  | none => cfg.email_to
  | some r => if r = "" then cfg.email_to else r

/-- `send_report_email` (src/email_sender.py lines 14-88), returning the trace of
network actions performed together with the outcome: `Except.error` models a raised
exception, `Except.ok true` the successful `return True`. -/
def send_report_email (cfg : EmailConfig) (recipient : Option String)
    (net : SmtpBehavior) : List NetAction × Except EmailErrKind Bool :=
  let recip := effectiveRecipient cfg recipient
  if cfg.email_from = "" ∨ cfg.email_password = "" ∨ recip = "" then
    ([], Except.error EmailErrKind.configIncomplete)
  else
    match net with
    | .accepts =>
      ([.connect, .startTls, .login, .sendMessage, .quit], Except.ok true)
    | .rejectsAuth =>
      ([.connect, .startTls, .login], Except.error EmailErrKind.authFailure)
    | .failsTransport =>
      ([.connect, .startTls, .login, .sendMessage], Except.error EmailErrKind.transportFailure)
    | .failsOtherwise =>
      ([.connect], Except.error EmailErrKind.unexpected)

/-! ## src/extract.py (record source time windows)

Timestamps are minutes on the proleptic Gregorian calendar, matching Python
`datetime` arithmetic: `dtToMin y m d hh mi` is the minute count of the given
calendar date and time of day, and `timedelta(days=1)` adds `1440`. -/

/-- Gregorian leap-year rule (as implemented by Python `datetime`). -/
def isLeapYear (y : ℕ) : Bool :=
  decide (y % 4 = 0 ∧ (y % 100 ≠ 0 ∨ y % 400 = 0))

/-- Days in month `m` of year `y`. -/
def daysInMonth (y m : ℕ) : ℕ :=
  if m = 2 then (if isLeapYear y then 29 else 28)
  else if m = 4 ∨ m = 6 ∨ m = 9 ∨ m = 11 then 30
  else 31

/-- Days in year `y` before the first day of month `m`. -/
def daysBeforeMonth (y : ℕ) : ℕ → ℕ
  | 0 => 0
  | 1 => 0
  | m + 2 => daysBeforeMonth y (m + 1) + daysInMonth y (m + 1)

/-- Days before January 1st of year `y` (counting from year 1). -/
def daysBeforeYear (y : ℕ) : ℕ :=
  365 * (y - 1) + (y - 1) / 4 + (y - 1) / 400 - (y - 1) / 100

/-- Day ordinal of a calendar date (0 for January 1st of year 1). -/
def dateOrdinal (y m d : ℕ) : ℕ :=
  daysBeforeYear y + daysBeforeMonth y m + (d - 1)

/-- Minute timestamp of `datetime(y, m, d, hh, mi)`. -/
def dtToMin (y m d hh mi : ℕ) : ℕ :=
  1440 * dateOrdinal y m d + 60 * hh + mi

/-- The calendar day following `(y, m, d)` (month and year roll-over included):
the spec-side description of `datetime(y, m, d, ...) + timedelta(days=1)`. -/
def nextCalendarDay (y m d : ℕ) : ℕ × ℕ × ℕ :=
  if d < daysInMonth y m then (y, m, d + 1)
  else if m < 12 then (y, m + 1, 1)
  else (y + 1, 1, 1)

/-- `filter_table_by_time` (src/extract.py lines 30-78), restricted to its filtering
step: keep the rows whose combined DATE+TIME timestamp lies between the two bounds,
both inclusive; a `none` bound is absent. `dateOf` extracts the merged timestamp. -/
def filter_table_by_time {α : Type} (dateOf : α → ℕ) (start_datetime end_datetime : Option ℕ)
    (rows : List α) : List α :=
  let r1 :=
    match start_datetime with
    | none => rows
    | some s => rows.filter fun a => decide (s ≤ dateOf a)
  match end_datetime with
  | none => r1
  | some e => r1.filter fun a => decide (dateOf a ≤ e)

/-- `get_data_by_time` (src/extract.py lines 111-134), with the two exported tables
passed in place of the MDB file: both are filtered by the same window. -/
def get_data_by_time (invoices : List Invoice) (sales : List Sale)
    (start_datetime end_datetime : Option ℕ) : List Invoice × List Sale :=
  (filter_table_by_time Invoice.date start_datetime end_datetime invoices,
   filter_table_by_time Sale.date start_datetime end_datetime sales)

/-- `get_monthly_data` (src/extract.py lines 137-155): 1st of the month at 14:00
through the 1st of the next month (December rolling to January) at 04:00. -/
def get_monthly_data (year month : ℕ) (invoices : List Invoice) (sales : List Sale) :
    List Invoice × List Sale :=
  let start_datetime := dtToMin year month 1 14 0
  let next := if month = 12 then (year + 1, 1) else (year, month + 1)
  let end_datetime := dtToMin next.1 next.2 1 4 0
  get_data_by_time invoices sales (some start_datetime) (some end_datetime)

/-- `get_daily_data` (src/extract.py lines 158-169): 14:00 of the given day through
`datetime(y, m, d, 4, 0) + timedelta(days=1)`. -/
def get_daily_data (year month day : ℕ) (invoices : List Invoice) (sales : List Sale) :
    List Invoice × List Sale :=
  let start_datetime := dtToMin year month day 14 0
  let end_datetime := dtToMin year month day 4 0 + 1440
  get_data_by_time invoices sales (some start_datetime) (some end_datetime)

/-! ## Concrete fixtures used by witnesses and examples -/

/-- The three line items of the spec's top-N example: A(amount=500), B(amount=900),
C(amount=100). -/
def demoSales : List Sale :=
  [ { date := 0, inv_no := 1, items := "A", catogery := "X", qty := 1, amount := 500, cost := 0 },
    { date := 0, inv_no := 1, items := "B", catogery := "X", qty := 1, amount := 900, cost := 0 },
    { date := 0, inv_no := 2, items := "C", catogery := "Y", qty := 1, amount := 100, cost := 0 } ]

/-- A single concrete invoice. -/
def demoInvoice : Invoice :=
  { date := 1064966640, amount := 350, vat := 49, sale_info := "cash", c_no := "dine-in" }

/-- The aggregated record for item "B" in `demoSales`. -/
def demoAggB : ItemAgg :=
  { key := "B", qty := 1, amount := 900, cost := 0, profit := 900 }

/-- The aggregated record for category "X" in `demoSales`. -/
def demoAggX : ItemAgg :=
  { key := "X", qty := 2, amount := 1400, cost := 0, profit := 1400 }

/-- Invoice metrics with a prescribed total revenue (only the revenue is read by
`calculate_growth`). -/
def demoMetrics (r : ℚ) : InvoiceMetrics :=
  { total_revenue := r
    total_transactions := 1
    average_transaction := r
    payment_breakdown := { counts := [], amounts := [] }
    service_breakdown := { counts := [], amounts := [] }
    daily_sales := []
    total_vat := 0 }

/-- A report whose invoice metrics carry a prescribed total revenue. -/
def demoReportOf (r : ℚ) : Report :=
  { invoices := demoMetrics r
    sales := analyze_sales 10 []
    period_start := none
    period_end := none
    growth := none }

/-- An email configuration with an unset password. -/
def demoBadConfig : EmailConfig :=
  { email_from := "owner@example.com", email_password := "", email_to := "boss@example.com" }

/-! ## Helper lemmas: grouping primitives -/

theorem mem_uniqueKeysAux {κ : Type} [DecidableEq κ] (l : List κ) (seen : List κ) (a : κ) :
    a ∈ uniqueKeysAux seen l ↔ a ∈ l ∧ a ∉ seen := by
  induction l generalizing seen with
  | nil => simp [uniqueKeysAux]
  | cons k ks ih =>
    by_cases hk : k ∈ seen
    · rw [uniqueKeysAux, if_pos hk, ih]
      constructor
      · rintro ⟨h1, h2⟩
        exact ⟨List.mem_cons_of_mem _ h1, h2⟩
      · rintro ⟨h1, h2⟩
        rcases List.mem_cons.1 h1 with rfl | h1
        · exact absurd hk h2
        · exact ⟨h1, h2⟩
    · rw [uniqueKeysAux, if_neg hk]
      by_cases hak : a = k
      · subst hak
        simp [hk]
      · simp only [List.mem_cons, hak, false_or, ih, not_or]

theorem nodup_uniqueKeysAux {κ : Type} [DecidableEq κ] (l : List κ) (seen : List κ) :
    (uniqueKeysAux seen l).Nodup := by
  induction l generalizing seen with
  | nil => simp [uniqueKeysAux]
  | cons k ks ih =>
    by_cases hk : k ∈ seen
    · rw [uniqueKeysAux, if_pos hk]
      exact ih seen
    · rw [uniqueKeysAux, if_neg hk]
      refine List.nodup_cons.2 ⟨fun hmem => ?_, ih (k :: seen)⟩
      exact ((mem_uniqueKeysAux ks (k :: seen) k).1 hmem).2 (List.mem_cons_self k seen)

theorem mem_uniqueKeys {κ : Type} [DecidableEq κ] (l : List κ) (a : κ) :
    a ∈ uniqueKeys l ↔ a ∈ l := by
  simp [uniqueKeys, mem_uniqueKeysAux]

theorem nodup_uniqueKeys {κ : Type} [DecidableEq κ] (l : List κ) :
    (uniqueKeys l).Nodup :=
  nodup_uniqueKeysAux l []

theorem uniqueKeys_eq_nil_iff {κ : Type} [DecidableEq κ] (l : List κ) :
    uniqueKeys l = [] ↔ l = [] := by
  constructor
  · intro h
    cases l with
    | nil => rfl
    | cons a l =>
      have ha : a ∈ uniqueKeys (a :: l) := (mem_uniqueKeys _ _).2 (List.mem_cons_self a l)
      rw [h] at ha
      cases ha
  · rintro rfl
    rfl

theorem sum_map_ite_single {κ : Type} [DecidableEq κ] (ks : List κ) (k : κ) (v : ℚ)
    (hnd : ks.Nodup) (hk : k ∈ ks) :
    (ks.map fun x => if k = x then v else 0).sum = v := by
  induction ks with
  | nil => cases hk
  | cons a as ih =>
    rcases List.nodup_cons.1 hnd with ⟨ha, hnd'⟩
    rcases List.mem_cons.1 hk with rfl | hk'
    · have hzero : (as.map fun x => if k = x then v else 0).sum = 0 := by
        apply List.sum_eq_zero
        intro q hq
        rcases List.mem_map.1 hq with ⟨b, hb, rfl⟩
        have hne : k ≠ b := by
          intro h
          subst h
          exact ha hb
        rw [if_neg hne]
      simp [hzero]
    · have hka : ¬ k = a := fun h => ha (h ▸ hk')
      simp [hka, ih hnd' hk']

theorem sum_groupSum_eq {α κ : Type} [DecidableEq κ] (key : α → κ) (val : α → ℚ)
    (xs : List α) (ks : List κ) (hnd : ks.Nodup) (hmem : ∀ x ∈ xs, key x ∈ ks) :
    (ks.map (groupSum key val xs)).sum = (xs.map val).sum := by
  induction xs with
  | nil =>
    have hzero : ∀ q ∈ ks.map (groupSum key val ([] : List α)), q = 0 := by
      intro q hq
      rcases List.mem_map.1 hq with ⟨k, _, rfl⟩
      simp [groupSum]
    simp [List.sum_eq_zero hzero]
  | cons x xs ih =>
    have hx : key x ∈ ks := hmem x (List.mem_cons_self x xs)
    have hxs : ∀ a ∈ xs, key a ∈ ks := fun a ha => hmem a (List.mem_cons_of_mem x ha)
    have hsplit : ks.map (groupSum key val (x :: xs)) =
        ks.map fun k => (if key x = k then val x else 0) + groupSum key val xs k := by
      apply List.map_congr_left
      intro k _
      by_cases h : key x = k
      · simp [groupSum, List.filter_cons, h]
      · simp [groupSum, List.filter_cons, h]
    rw [hsplit, List.sum_map_add, sum_map_ite_single ks (key x) (val x) hnd hx, ih hxs]
    simp

theorem map_fst_mk_eq {κ β : Type} (f : κ → β) (l : List κ) :
    ((l.map fun k => (k, f k)).map Prod.fst) = l := by
  induction l with
  | nil => rfl
  | cons a l ih => simp [ih]

theorem map_snd_mk_eq {κ β : Type} (f : κ → β) (l : List κ) :
    ((l.map fun k => (k, f k)).map Prod.snd) = l.map f := by
  induction l with
  | nil => rfl
  | cons a l ih => simp [ih]

theorem map_fst_groupSums {α κ : Type} [DecidableEq κ] (key : α → κ) (val : α → ℚ)
    (xs : List α) :
    (groupSums key val xs).map Prod.fst = uniqueKeys (xs.map key) := by
  rw [groupSums, map_fst_mk_eq]

theorem sum_map_snd_groupSums {α κ : Type} [DecidableEq κ] (key : α → κ) (val : α → ℚ)
    (xs : List α) :
    ((groupSums key val xs).map Prod.snd).sum = (xs.map val).sum := by
  rw [groupSums, map_snd_mk_eq]
  exact sum_groupSum_eq key val xs _ (nodup_uniqueKeys _)
    (fun x hx => (mem_uniqueKeys _ _).2 (List.mem_map_of_mem key hx))

theorem map_fst_value_counts_perm {α κ : Type} [DecidableEq κ] (key : α → κ) (xs : List α) :
    ((value_counts key xs).map Prod.fst).Perm (uniqueKeys (xs.map key)) := by
  have h1 := (List.perm_insertionSort (descBy Prod.snd)
    ((uniqueKeys (xs.map key)).map fun k => (k, groupCount key xs k))).map Prod.fst
  rw [map_fst_mk_eq] at h1
  exact h1

theorem map_key_aggBy (key : Sale → String) (xs : List Sale) :
    (aggBy key xs).map ItemAgg.key = uniqueKeys (xs.map key) := by
  unfold aggBy
  generalize uniqueKeys (xs.map key) = l
  induction l with
  | nil => rfl
  | cons a l ih => simp [ih]

/-! ## Helper lemmas: calendar arithmetic -/

theorem daysInMonth_pos (y m : ℕ) : 1 ≤ daysInMonth y m := by
  unfold daysInMonth
  split_ifs <;> omega

theorem daysBeforeMonth_succ (y m : ℕ) (hm : 1 ≤ m) :
    daysBeforeMonth y (m + 1) = daysBeforeMonth y m + daysInMonth y m := by
  match m, hm with
  | m + 1, _ => rfl

theorem daysBeforeMonth_year (y : ℕ) :
    daysBeforeMonth y 12 + daysInMonth y 12 = if isLeapYear y then 366 else 365 := by
  have hb : daysBeforeMonth y 12 + daysInMonth y 12 = 337 + daysInMonth y 2 := by
    show 31 + daysInMonth y 2 + 31 + 30 + 31 + 30 + 31 + 31 + 30 + 31 + 30 + 31 =
      337 + daysInMonth y 2
    omega
  have h2 : daysInMonth y 2 = if isLeapYear y then 29 else 28 := rfl
  rw [hb, h2]
  cases isLeapYear y <;> norm_num

set_option maxHeartbeats 1000000 in
theorem daysBeforeYear_succ (y : ℕ) (hy : 1 ≤ y) :
    daysBeforeYear (y + 1) = daysBeforeYear y + (if isLeapYear y then 366 else 365) := by
  have hif : (if isLeapYear y then (366 : ℕ) else 365) =
      if y % 4 = 0 ∧ (y % 100 ≠ 0 ∨ y % 400 = 0) then 366 else 365 := by
    simp [isLeapYear]
  rw [hif]
  unfold daysBeforeYear
  by_cases h4 : y % 4 = 0
  · by_cases h100 : y % 100 = 0
    · by_cases h400 : y % 400 = 0
      · rw [if_pos ⟨h4, Or.inr h400⟩]
        omega
      · rw [if_neg fun hc => hc.2.elim (fun hne => hne h100) h400]
        omega
    · rw [if_pos ⟨h4, Or.inl h100⟩]
      omega
  · rw [if_neg fun hc => h4 hc.1]
    omega

theorem dateOrdinal_nextCalendarDay (y m d : ℕ) (hy : 1 ≤ y) (hm1 : 1 ≤ m) (hm2 : m ≤ 12)
    (hd1 : 1 ≤ d) (hd2 : d ≤ daysInMonth y m) :
    dateOrdinal (nextCalendarDay y m d).1 (nextCalendarDay y m d).2.1
      (nextCalendarDay y m d).2.2 = dateOrdinal y m d + 1 := by
  unfold nextCalendarDay
  by_cases h1 : d < daysInMonth y m
  · rw [if_pos h1]
    show dateOrdinal y m (d + 1) = dateOrdinal y m d + 1
    unfold dateOrdinal
    omega
  · rw [if_neg h1]
    have hd : d = daysInMonth y m := le_antisymm hd2 (not_lt.1 h1)
    by_cases h2 : m < 12
    · rw [if_pos h2]
      show dateOrdinal y (m + 1) 1 = dateOrdinal y m d + 1
      have hsucc := daysBeforeMonth_succ y m hm1
      have hpos := daysInMonth_pos y m
      unfold dateOrdinal
      omega
    · rw [if_neg h2]
      have hm : m = 12 := by omega
      subst hm
      show dateOrdinal (y + 1) 1 1 = dateOrdinal y 12 d + 1
      have h31 : daysInMonth y 12 = 31 := rfl
      have hyear := daysBeforeMonth_year y
      have hsucc := daysBeforeYear_succ y hy
      have h0 : daysBeforeMonth (y + 1) 1 = 0 := rfl
      unfold dateOrdinal
      cases hL : isLeapYear y <;> rw [hL] at hyear hsucc <;> simp at hyear hsucc <;> omega

theorem dtToMin_nextCalendarDay (y m d : ℕ) (hy : 1 ≤ y) (hm1 : 1 ≤ m) (hm2 : m ≤ 12)
    (hd1 : 1 ≤ d) (hd2 : d ≤ daysInMonth y m) :
    dtToMin y m d 4 0 + 1440 =
      dtToMin (nextCalendarDay y m d).1 (nextCalendarDay y m d).2.1
        (nextCalendarDay y m d).2.2 4 0 := by
  unfold dtToMin
  rw [dateOrdinal_nextCalendarDay y m d hy hm1 hm2 hd1 hd2]
  ring

theorem mem_filter_table_by_time {α : Type} (dateOf : α → ℕ) (s e : ℕ) (rows : List α)
    (a : α) :
    a ∈ filter_table_by_time dateOf (some s) (some e) rows ↔
      a ∈ rows ∧ s ≤ dateOf a ∧ dateOf a ≤ e := by
  simp only [filter_table_by_time, List.mem_filter, decide_eq_true_eq]
  tauto

/-! ## Claims -/

/-- Claim C2: `aggregate_invoices` applied to an empty invoice collection returns
total_revenue = 0, transaction count = 0, average transaction = 0 and total VAT = 0
without raising; in general the average transaction equals total_revenue / count when
count > 0 and 0 when count = 0. -/
theorem claim_c2_empty_and_average (invoices : List Invoice) :
    (analyze_invoices []).total_revenue = 0 ∧
    (analyze_invoices []).total_transactions = 0 ∧
    (analyze_invoices []).average_transaction = 0 ∧
    (analyze_invoices []).total_vat = 0 ∧
    ((analyze_invoices invoices).total_transactions > 0 →
      (analyze_invoices invoices).average_transaction =
        (analyze_invoices invoices).total_revenue /
          ((analyze_invoices invoices).total_transactions : ℚ)) ∧
    ((analyze_invoices invoices).total_transactions = 0 →
      (analyze_invoices invoices).average_transaction = 0) := by
  refine ⟨rfl, rfl, rfl, rfl, ?_, ?_⟩
  · intro h
    simp only [analyze_invoices] at h ⊢
    rw [if_pos h]
  · intro h
    simp only [analyze_invoices] at h ⊢
    rw [if_neg (by omega)]

theorem claim_c2_witness :
    (analyze_invoices [demoInvoice]).total_transactions > 0 ∧
    (analyze_invoices [demoInvoice]).average_transaction =
      (analyze_invoices [demoInvoice]).total_revenue /
        ((analyze_invoices [demoInvoice]).total_transactions : ℚ) :=
  ⟨by decide, (claim_c2_empty_and_average [demoInvoice]).2.2.2.2.1 (by decide)⟩

/-- Claim C3: `calculate_growth` is absent when no previous snapshot is supplied
(also: the `"growth"` key is absent from the report in that case) or when the
previous revenue is 0; otherwise it is (current - previous) / previous * 100
rounded to one decimal place, and 1100 against 1000 gives +10.0. -/
theorem claim_c3_growth (current prev : Report) (topN : ℕ) (invoices : List Invoice)
    (sales : List Sale) :
    calculate_growth current none = none ∧
    (generate_report_data topN invoices sales none).growth = none ∧
    (prev.invoices.total_revenue = 0 → calculate_growth current (some prev) = none) ∧
    (prev.invoices.total_revenue ≠ 0 →
      calculate_growth current (some prev) =
        some (round1 ((current.invoices.total_revenue - prev.invoices.total_revenue) /
          prev.invoices.total_revenue * 100))) ∧
    (current.invoices.total_revenue = 1100 → prev.invoices.total_revenue = 1000 →
      calculate_growth current (some prev) = some 10) := by
  refine ⟨rfl, rfl, ?_, ?_, ?_⟩
  · intro h
    simp only [calculate_growth]
    rw [if_pos h]
  · intro h
    simp only [calculate_growth]
    rw [if_neg h]
  · intro hc hp
    simp only [calculate_growth]
    rw [if_neg (by rw [hp]; norm_num), hc, hp]
    norm_num [round1, roundHalfEven]

theorem claim_c3_witness :
    (demoReportOf 1100).invoices.total_revenue = 1100 ∧
    (demoReportOf 1000).invoices.total_revenue = 1000 ∧
    calculate_growth (demoReportOf 1100) (some (demoReportOf 1000)) = some 10 :=
  ⟨rfl, rfl,
    (claim_c3_growth (demoReportOf 1100) (demoReportOf 1000) 10 [] []).2.2.2.2 rfl rfl⟩

/-- Claim C5: on a snapshot with zero transactions (in particular one built from an
empty invoice collection) the renderer emits the minimal "no activity" document
instead of the full layout; with transactions present it emits the full layout. -/
theorem claim_c5_no_sales (topN : ℕ) (sales : List Sale) (prev : Option Report)
    (withDetail : Bool) (r : Report) :
    generate_pdf (some (generate_report_data topN [] sales prev)) withDetail =
      PdfDoc.noSales ∧
    (r.invoices.total_transactions = 0 →
      generate_pdf (some r) withDetail = PdfDoc.noSales) ∧
    (r.invoices.total_transactions ≠ 0 →
      generate_pdf (some r) withDetail =
        PdfDoc.full
          ([.header, .summary, .payment, .service, .topItems, .category] ++
            if withDetail then [.invoiceDetail] else [])) := by
  have hzero : (generate_report_data topN [] sales prev).invoices.total_transactions = 0 := by
    cases prev <;> rfl
  refine ⟨?_, ?_, ?_⟩
  · simp only [generate_pdf]
    rw [if_pos hzero]
    rfl
  · intro h
    simp only [generate_pdf]
    rw [if_pos h]
    rfl
  · intro h
    simp only [generate_pdf]
    rw [if_neg h]

theorem claim_c5_witness :
    (demoReportOf 350).invoices.total_transactions ≠ 0 ∧
    generate_pdf (some (demoReportOf 350)) true =
      PdfDoc.full [.header, .summary, .payment, .service, .topItems, .category,
        .invoiceDetail] := by
  refine ⟨by decide, ?_⟩
  have h := (claim_c5_no_sales 10 [] none true (demoReportOf 350)).2.2 (by decide)
  simpa using h

/-- Claim C6: `generate_report_data` is a pure function of its arguments — two calls
on identical input collections (same order) and the same previous snapshot produce
identical output, and the inputs are not mutated (lists are immutable values in the
embedding). -/
theorem claim_c6_deterministic (inv1 inv2 : List Invoice) (s1 s2 : List Sale)
    (prev : Option Report) (topN : ℕ) (h1 : inv1 = inv2) (h2 : s1 = s2) :
    generate_report_data topN inv1 s1 prev = generate_report_data topN inv2 s2 prev := by
  rw [h1, h2]

theorem claim_c6_witness :
    [demoInvoice] = [demoInvoice] ∧ demoSales = demoSales ∧
    generate_report_data 10 [demoInvoice] demoSales none =
      generate_report_data 10 [demoInvoice] demoSales none :=
  ⟨rfl, rfl, claim_c6_deterministic [demoInvoice] [demoInvoice] demoSales demoSales
    none 10 rfl rfl⟩

/-- Claim C7: with an incomplete configuration (missing sender, password or
recipient) `send_report_email` raises the configuration error before any network
action, whatever the SMTP server would do; that error kind is distinct from the
authentication-failure and transport-failure kinds. -/
theorem claim_c7_config_incomplete (cfg : EmailConfig) (recipient : Option String)
    (net : SmtpBehavior)
    (hIncomplete : cfg.email_from = "" ∨ cfg.email_password = "" ∨
      effectiveRecipient cfg recipient = "") :
    send_report_email cfg recipient net =
      ([], Except.error EmailErrKind.configIncomplete) ∧
    (send_report_email cfg recipient net).1 = [] ∧
    EmailErrKind.configIncomplete ≠ EmailErrKind.authFailure ∧
    EmailErrKind.configIncomplete ≠ EmailErrKind.transportFailure ∧
    EmailErrKind.authFailure ≠ EmailErrKind.transportFailure := by
  have hmain : send_report_email cfg recipient net =
      ([], Except.error EmailErrKind.configIncomplete) := by
    simp only [send_report_email]
    rw [if_pos hIncomplete]
  exact ⟨hmain, by rw [hmain], by decide, by decide, by decide⟩

theorem claim_c7_witness :
    (demoBadConfig.email_from = "" ∨ demoBadConfig.email_password = "" ∨
      effectiveRecipient demoBadConfig none = "") ∧
    send_report_email demoBadConfig none SmtpBehavior.accepts =
      ([], Except.error EmailErrKind.configIncomplete) :=
  ⟨Or.inr (Or.inl rfl),
    (claim_c7_config_incomplete demoBadConfig none SmtpBehavior.accepts
      (Or.inr (Or.inl rfl))).1⟩

/-- Claim C9: for a non-empty line-item collection the average items per invoice is
the arithmetic mean, over the invoice ids present, of the per-invoice sums of
quantity (so the mean times the number of invoice ids is the total quantity); with
zero invoices the value is absent. -/
theorem claim_c9_avg_items (topN : ℕ) (sales : List Sale) :
    (sales ≠ [] →
      ∃ v : ℚ,
        (analyze_sales topN sales).avg_items_per_order = some v ∧
        v = ((uniqueKeys (sales.map Sale.inv_no)).map
              (fun inv => ((sales.filter fun s => decide (s.inv_no = inv)).map
                Sale.qty).sum)).sum /
            ((uniqueKeys (sales.map Sale.inv_no)).length : ℚ) ∧
        v * ((uniqueKeys (sales.map Sale.inv_no)).length : ℚ) =
          (sales.map Sale.qty).sum) ∧
    (sales = [] → (analyze_sales topN sales).avg_items_per_order = none) := by
  constructor
  · intro hne
    have hids : uniqueKeys (sales.map Sale.inv_no) ≠ [] := by
      intro h
      exact hne (List.map_eq_nil_iff.1 ((uniqueKeys_eq_nil_iff _).1 h))
    have hlen : (uniqueKeys (sales.map Sale.inv_no)).length ≠ 0 :=
      fun h => hids (List.length_eq_zero.1 h)
    refine ⟨((uniqueKeys (sales.map Sale.inv_no)).map
        (fun inv => ((sales.filter fun s => decide (s.inv_no = inv)).map
          Sale.qty).sum)).sum /
        ((uniqueKeys (sales.map Sale.inv_no)).length : ℚ), ?_, rfl, ?_⟩
    · simp only [analyze_sales]
      rw [if_neg hlen]
      rfl
    · rw [div_mul_cancel₀]
      · exact sum_groupSum_eq Sale.inv_no Sale.qty sales _ (nodup_uniqueKeys _)
          (fun x hx => (mem_uniqueKeys _ _).2 (List.mem_map_of_mem Sale.inv_no hx))
      · exact_mod_cast hlen
  · intro hempty
    subst hempty
    rfl

theorem claim_c9_witness :
    demoSales ≠ [] ∧
    ∃ v : ℚ,
      (analyze_sales 5 demoSales).avg_items_per_order = some v ∧
      v = ((uniqueKeys (demoSales.map Sale.inv_no)).map
            (fun inv => ((demoSales.filter fun s => decide (s.inv_no = inv)).map
              Sale.qty).sum)).sum /
          ((uniqueKeys (demoSales.map Sale.inv_no)).length : ℚ) ∧
      v * ((uniqueKeys (demoSales.map Sale.inv_no)).length : ℚ) =
        (demoSales.map Sale.qty).sum :=
  ⟨by decide, (claim_c9_avg_items 5 demoSales).1 (by decide)⟩

/-- Claim C10: the invoice aggregation conserves revenue across each grouping — the
payment-method amounts, the service-type amounts and the per-calendar-day daily
sales each sum to total_revenue — and in each breakdown the counts map and the
amounts map have the same key set. -/
theorem claim_c10_conservation (invoices : List Invoice) :
    ((analyze_invoices invoices).payment_breakdown.amounts.map Prod.snd).sum =
      (analyze_invoices invoices).total_revenue ∧
    ((analyze_invoices invoices).service_breakdown.amounts.map Prod.snd).sum =
      (analyze_invoices invoices).total_revenue ∧
    ((analyze_invoices invoices).daily_sales.map Prod.snd).sum =
      (analyze_invoices invoices).total_revenue ∧
    (∀ k, k ∈ (analyze_invoices invoices).payment_breakdown.counts.map Prod.fst ↔
      k ∈ (analyze_invoices invoices).payment_breakdown.amounts.map Prod.fst) ∧
    (∀ k, k ∈ (analyze_invoices invoices).service_breakdown.counts.map Prod.fst ↔
      k ∈ (analyze_invoices invoices).service_breakdown.amounts.map Prod.fst) := by
  refine ⟨?_, ?_, ?_, ?_, ?_⟩
  · simpa [analyze_invoices] using
      sum_map_snd_groupSums Invoice.sale_info Invoice.amount invoices
  · simpa [analyze_invoices] using
      sum_map_snd_groupSums Invoice.c_no Invoice.amount invoices
  · simpa [analyze_invoices] using
      sum_map_snd_groupSums calendarDay Invoice.amount invoices
  · intro k
    simp only [analyze_invoices]
    rw [map_fst_groupSums]
    exact (map_fst_value_counts_perm Invoice.sale_info invoices).mem_iff
  · intro k
    simp only [analyze_invoices]
    rw [map_fst_groupSums]
    exact (map_fst_value_counts_perm Invoice.c_no invoices).mem_iff

/-- Claim C1: `aggregate_sales` groups line items by item name, sums quantity,
amount and cost per group, derives profit = amount - cost, sorts descending by
summed amount, and truncates to the configured top-N (default 10); on the spec's
example with top-N = 2 and A(500), B(900), C(100) the result keys are [B, A]. -/
theorem claim_c1_top_items (topN : ℕ) (sales : List Sale) :
    TOP_ITEMS_COUNT = 10 ∧
    (∀ e ∈ (analyze_sales topN sales).top_items,
      e.key ∈ sales.map Sale.items ∧
      e.qty = ((sales.filter fun s => decide (s.items = e.key)).map Sale.qty).sum ∧
      e.amount = ((sales.filter fun s => decide (s.items = e.key)).map Sale.amount).sum ∧
      e.cost = ((sales.filter fun s => decide (s.items = e.key)).map Sale.cost).sum ∧
      e.profit = e.amount - e.cost) ∧
    (analyze_sales topN sales).top_items.Pairwise
      (fun a b => ItemAgg.amount b ≤ ItemAgg.amount a) ∧
    (analyze_sales topN sales).top_items.length =
      min topN (uniqueKeys (sales.map Sale.items)).length ∧
    (analyze_sales 2 demoSales).top_items.map ItemAgg.key = ["B", "A"] := by
  have htop : (analyze_sales topN sales).top_items =
      (sortDescByAmount (aggBy Sale.items sales)).take topN := rfl
  refine ⟨rfl, ?_, ?_, ?_, ?_⟩
  · intro e he
    rw [htop] at he
    have he2 : e ∈ sortDescByAmount (aggBy Sale.items sales) :=
      (List.take_sublist topN _).subset he
    have he3 : e ∈ aggBy Sale.items sales := by
      rw [sortDescByAmount] at he2
      exact (List.mem_insertionSort _).1 he2
    rcases List.mem_map.1 he3 with ⟨k, hk, rfl⟩
    exact ⟨(mem_uniqueKeys _ _).1 hk, rfl, rfl, rfl, rfl⟩
  · rw [htop]
    have hsorted : List.Sorted (descBy ItemAgg.amount)
        (sortDescByAmount (aggBy Sale.items sales)) :=
      List.sorted_insertionSort (descBy ItemAgg.amount) _
    exact (hsorted.sublist (List.take_sublist topN _)).imp fun h => h
  · rw [htop, List.length_take, sortDescByAmount, List.length_insertionSort, aggBy,
      List.length_map]
  · norm_num +decide [analyze_sales, demoSales, sortDescByAmount, aggBy, uniqueKeys,
      uniqueKeysAux, groupSum, List.insertionSort, List.orderedInsert, descBy,
      List.filter_cons, List.filter_nil, List.map_cons, List.map_nil, List.sum_cons,
      List.sum_nil, List.take_succ_cons, List.take_zero]

theorem claim_c1_witness :
    demoAggB ∈ (analyze_sales 2 demoSales).top_items ∧
    demoAggB.profit = demoAggB.amount - demoAggB.cost := by
  have hmem : demoAggB ∈ (analyze_sales 2 demoSales).top_items := by
    norm_num +decide [analyze_sales, demoSales, demoAggB, sortDescByAmount, aggBy,
      uniqueKeys, uniqueKeysAux, groupSum, List.insertionSort, List.orderedInsert,
      descBy, List.filter_cons, List.filter_nil, List.map_cons, List.map_nil,
      List.sum_cons, List.sum_nil, List.take_succ_cons, List.take_zero, List.mem_cons]
  exact ⟨hmem, ((claim_c1_top_items 2 demoSales).2.1 demoAggB hmem).2.2.2.2⟩

/-- Claim C4: the category performance ranking has exactly one entry per distinct
category present in the line items (never truncated), is sorted descending by summed
amount, and each entry's profit is its summed amount minus its summed cost. -/
theorem claim_c4_category_ranking (topN : ℕ) (sales : List Sale) :
    (∀ c, c ∈ (analyze_sales topN sales).category_performance.map ItemAgg.key ↔
      c ∈ sales.map Sale.catogery) ∧
    ((analyze_sales topN sales).category_performance.map ItemAgg.key).Nodup ∧
    (analyze_sales topN sales).category_performance.length =
      (uniqueKeys (sales.map Sale.catogery)).length ∧
    (analyze_sales topN sales).category_performance.Pairwise
      (fun a b => ItemAgg.amount b ≤ ItemAgg.amount a) ∧
    (∀ e ∈ (analyze_sales topN sales).category_performance,
      e.qty = ((sales.filter fun s => decide (s.catogery = e.key)).map Sale.qty).sum ∧
      e.amount = ((sales.filter fun s => decide (s.catogery = e.key)).map Sale.amount).sum ∧
      e.cost = ((sales.filter fun s => decide (s.catogery = e.key)).map Sale.cost).sum ∧
      e.profit = e.amount - e.cost) := by
  have hcat : (analyze_sales topN sales).category_performance =
      sortDescByAmount (aggBy Sale.catogery sales) := rfl
  have hperm : ((analyze_sales topN sales).category_performance.map ItemAgg.key).Perm
      (uniqueKeys (sales.map Sale.catogery)) := by
    rw [hcat, sortDescByAmount, ← map_key_aggBy Sale.catogery sales]
    exact (List.perm_insertionSort _ _).map ItemAgg.key
  refine ⟨?_, ?_, ?_, ?_, ?_⟩
  · intro c
    rw [hperm.mem_iff, mem_uniqueKeys]
  · exact (hperm.nodup_iff).2 (nodup_uniqueKeys _)
  · rw [hcat, sortDescByAmount, List.length_insertionSort, aggBy, List.length_map]
  · rw [hcat]
    exact (List.sorted_insertionSort (descBy ItemAgg.amount) _).imp fun h => h
  · intro e he
    rw [hcat, sortDescByAmount] at he
    have he2 : e ∈ aggBy Sale.catogery sales := (List.mem_insertionSort _).1 he
    rcases List.mem_map.1 he2 with ⟨k, _, rfl⟩
    exact ⟨rfl, rfl, rfl, rfl⟩

theorem claim_c4_witness :
    demoAggX ∈ (analyze_sales 2 demoSales).category_performance ∧
    demoAggX.profit = demoAggX.amount - demoAggX.cost := by
  have hmem : demoAggX ∈ (analyze_sales 2 demoSales).category_performance := by
    norm_num +decide [analyze_sales, demoSales, demoAggX, sortDescByAmount, aggBy,
      uniqueKeys, uniqueKeysAux, groupSum, List.insertionSort, List.orderedInsert,
      descBy, List.filter_cons, List.filter_nil, List.map_cons, List.map_nil,
      List.sum_cons, List.sum_nil, List.mem_cons]
  exact ⟨hmem, ((claim_c4_category_ranking 2 demoSales).2.2.2.2 demoAggX hmem).2.2.2⟩

/-- Claim C8: a daily fetch for day (y, m, d) keeps exactly the records whose
combined timestamp lies between 14:00 of that day and 04:00 of the following
calendar day, both bounds inclusive; a monthly fetch for (y, m) keeps exactly the
records between the 1st of the month at 14:00 and the 1st of the next month
(December rolling to January of the next year) at 04:00, both inclusive. -/
theorem claim_c8_windows (y m d : ℕ) (hy : 1 ≤ y) (hm1 : 1 ≤ m) (hm2 : m ≤ 12)
    (hd1 : 1 ≤ d) (hd2 : d ≤ daysInMonth y m) (invoices : List Invoice)
    (sales : List Sale) :
    (∀ i : Invoice, i ∈ (get_daily_data y m d invoices sales).1 ↔
      i ∈ invoices ∧ dtToMin y m d 14 0 ≤ i.date ∧
        i.date ≤ dtToMin (nextCalendarDay y m d).1 (nextCalendarDay y m d).2.1
          (nextCalendarDay y m d).2.2 4 0) ∧
    (∀ s : Sale, s ∈ (get_daily_data y m d invoices sales).2 ↔
      s ∈ sales ∧ dtToMin y m d 14 0 ≤ s.date ∧
        s.date ≤ dtToMin (nextCalendarDay y m d).1 (nextCalendarDay y m d).2.1
          (nextCalendarDay y m d).2.2 4 0) ∧
    (∀ i : Invoice, i ∈ (get_monthly_data y m invoices sales).1 ↔
      i ∈ invoices ∧ dtToMin y m 1 14 0 ≤ i.date ∧
        i.date ≤ (if m = 12 then dtToMin (y + 1) 1 1 4 0 else dtToMin y (m + 1) 1 4 0)) ∧
    (∀ s : Sale, s ∈ (get_monthly_data y m invoices sales).2 ↔
      s ∈ sales ∧ dtToMin y m 1 14 0 ≤ s.date ∧
        s.date ≤ (if m = 12 then dtToMin (y + 1) 1 1 4 0 else dtToMin y (m + 1) 1 4 0)) := by
  have hend := dtToMin_nextCalendarDay y m d hy hm1 hm2 hd1 hd2
  refine ⟨?_, ?_, ?_, ?_⟩
  · intro i
    rw [← hend]
    exact mem_filter_table_by_time Invoice.date _ _ invoices i
  · intro s
    rw [← hend]
    exact mem_filter_table_by_time Sale.date _ _ sales s
  · intro i
    by_cases h12 : m = 12
    · subst h12
      rw [if_pos rfl]
      exact mem_filter_table_by_time Invoice.date _ _ invoices i
    · simp only [get_monthly_data, get_data_by_time, if_neg h12]
      exact mem_filter_table_by_time Invoice.date _ _ invoices i
  · intro s
    by_cases h12 : m = 12
    · subst h12
      rw [if_pos rfl]
      exact mem_filter_table_by_time Sale.date _ _ sales s
    · simp only [get_monthly_data, get_data_by_time, if_neg h12]
      exact mem_filter_table_by_time Sale.date _ _ sales s

theorem claim_c8_witness :
    ((1 : ℕ) ≤ 2025 ∧ (1 : ℕ) ≤ 12 ∧ (12 : ℕ) ≤ 12 ∧ (1 : ℕ) ≤ 31 ∧
      31 ≤ daysInMonth 2025 12) ∧
    (demoInvoice ∈ (get_daily_data 2025 12 31 [demoInvoice] []).1 ↔
      demoInvoice ∈ [demoInvoice] ∧ dtToMin 2025 12 31 14 0 ≤ demoInvoice.date ∧
        demoInvoice.date ≤ dtToMin (nextCalendarDay 2025 12 31).1
          (nextCalendarDay 2025 12 31).2.1 (nextCalendarDay 2025 12 31).2.2 4 0) :=
  ⟨⟨by norm_num, by norm_num, by norm_num, by norm_num, by decide⟩,
    (claim_c8_windows 2025 12 31 (by norm_num) (by norm_num) (by norm_num)
      (by norm_num) (by decide) [demoInvoice] []).1 demoInvoice⟩

end PosReporter
